import Mathlib

/-
Verification development for the comic-generator backend.

The definitions below are a shallow embedding of the TypeScript sources:
  * src/middleware/auth.ts      (authenticateToken)
  * src/routes/auth.ts          (login route)
  * src/routes/comics.ts        (list / get / create / generate / update / delete)
  * src/routes/images.ts        (delete-image route)
  * src/services/imageUpload.ts (deleteImage, getImageUrl)
  * src/services/gemini.ts      (generateComicScript, generatePanelImage)

External effects are made explicit parameters: the MySQL table is a list of
rows, the JWT verifier, the bcrypt comparison and the Gemini transport are
function / outcome parameters, and environment variables are Option String
values (none = unset).  JavaScript string truthiness (empty string is falsy)
is modelled explicitly wherever the source relies on it.
-/

namespace ComicBackend

/-- JavaScript truthiness of an optional string value: undefined and the
empty string are falsy. -/
def jsTruthy : Option String → Bool
  | none => false
  | some s => !s.isEmpty

/-- JavaScript `a || b` fallback chain step for env vars: a set, non-empty
variable is kept, otherwise the next candidate is consulted. -/
def envOr (v : Option String) (fallback : String) : String :=
  match v with
  | some s => if s.isEmpty then fallback else s
  | none => fallback

/-- Models JS `s.startsWith(pre)` via the underlying character list. -/
def jsStartsWith (s pre : String) : Bool :=
  pre.toList.isPrefixOf s.toList

/- ===================== auth middleware (src/middleware/auth.ts) ========= -/

/-- The second space-separated field of a string, as JS
`authHeader.split(' ')[1]`: none when the string holds no space at all
(index 1 is undefined), otherwise the possibly empty field between the
first and second space. -/
def splitSecondField (s : String) : Option String :=
  match s.toList.dropWhile (fun c => !(c = ' ')) with
  | [] => none
  | _ :: rest => some (String.mk (rest.takeWhile (fun c => !(c = ' '))))

/-- Models `const token = authHeader && authHeader.split(' ')[1]` followed by
the `if (!token)` truthiness test: the result is some token exactly when the
middleware proceeds past the 401 guard. -/
def extractBearerToken (authHeader : Option String) : Option String :=
  match authHeader with
  | none => none
  | some h =>
    if h.isEmpty then none
    else
      match splitSecondField h with
      | none => none
      | some t => if t.isEmpty then none else some t

/-- Outcome of the authenticateToken middleware.  `proceed` carries the
identity attached to the request (`req.userId`, `req.userEmail`) before
`next()` is invoked; every other outcome responds without invoking the
downstream handler. -/
inductive AuthResult where
  | unauthenticated                        -- 401 Access token required
  | serverError                            -- 500 missing JWT secret
  | forbidden                              -- 403 Invalid or expired token
  | proceed (userId : String) (email : String)
deriving DecidableEq

/-- src/middleware/auth.ts, authenticateToken.  `verify` models
`jwt.verify token secret`: some (userId, email) on success, none when the
signature or expiry check throws. -/
def authenticateToken (authHeader : Option String) (jwtSecretEnv : Option String)
    (verify : String → String → Option (String × String)) : AuthResult :=
  match extractBearerToken authHeader with
  | none => .unauthenticated
  | some token =>
    match jwtSecretEnv with
    | none => .serverError
    | some secret =>
      if secret.isEmpty then .serverError
      else
        match verify token secret with
        | none => .forbidden
        | some p => .proceed p.1 p.2

/- ===================== login route (src/routes/auth.ts) ================= -/

structure UserRow where
  id : Nat
  email : String
  passwordHash : String
  name : String
deriving DecidableEq

/-- Outcome of POST /api/auth/login. -/
inductive LoginResult where
  | badRequest                             -- 400 Email and password are required
  | invalidCredentials                     -- 401 Invalid credentials
  | serverError                            -- 500 missing JWT secret
  | ok (token : String) (id : String) (email : String) (name : String)
deriving DecidableEq

/-- src/routes/auth.ts, the login handler.  Missing body fields are modelled
as the empty string (both are falsy in `if (!email || !password)`).
`bcryptCompare password hash` models `bcrypt.compare`; `sign userId email`
models `jwt.sign` of the token payload.  The SELECT by email returns the
first matching row. -/
def login (email password : String) (users : List UserRow)
    (bcryptCompare : String → String → Bool) (jwtSecretEnv : Option String)
    (sign : String → String → String) : LoginResult :=
  if email.isEmpty || password.isEmpty then .badRequest
  else
    match users.find? (fun u => u.email == email) with
    | none => .invalidCredentials
    | some user =>
      if !(bcryptCompare password user.passwordHash) then .invalidCredentials
      else
        match jwtSecretEnv with
        | none => .serverError
        | some secret =>
          if secret.isEmpty then .serverError
          else .ok (sign (toString user.id) user.email) (toString user.id) user.email user.name

/- ===================== image store (src/services/imageUpload.ts) ======== -/

/-- src/services/imageUpload.ts, deleteImage: the fs.unlink outcome is a
parameter; any error is caught and swallowed (deletion is best effort), so
the function always resolves. -/
def deleteImage (unlinkOutcome : Except String Unit) : Except String Unit :=
  match unlinkOutcome with
  | .ok _ => .ok ()
  | .error _ => .ok ()

/-- Drops a single trailing slash, as the replace of a trailing-slash regex
with the empty string does. -/
def dropOneTrailingSlash (s : String) : String :=
  match s.toList.getLast? with
  | some c => if c = '/' then String.mk s.toList.dropLast else s
  | none => s

/-- src/services/imageUpload.ts, getImageUrl.  The two env vars feed the
JS fallback chain BACKEND_URL, then API_URL, then the hard-coded default
base URL. -/
def getImageUrl (backendUrlEnv apiUrlEnv : Option String) (imagePath : String) : String :=
  if jsStartsWith imagePath "http" then imagePath
  else
    let backendUrl := envOr backendUrlEnv (envOr apiUrlEnv "https://api.mycomic.online")
    let baseUrl := dropOneTrailingSlash backendUrl
    if jsStartsWith imagePath "/uploads/" then baseUrl ++ imagePath
    else if jsStartsWith imagePath "/uploads" then baseUrl ++ imagePath
    else if jsStartsWith imagePath "images/" then baseUrl ++ "/uploads/" ++ imagePath
    else baseUrl ++ "/uploads/" ++ imagePath

/-- The base URL the handler resolves from the environment, before the
trailing-slash strip. -/
def effectiveBackendUrl (backendUrlEnv apiUrlEnv : Option String) : String :=
  envOr backendUrlEnv (envOr apiUrlEnv "https://api.mycomic.online")

/- ================= delete-image route (src/routes/images.ts) ============ -/

/-- Hexadecimal digit value, as used by percent decoding. -/
def hexVal (c : Char) : Option Nat :=
  if c.isDigit then some (c.toNat - 48)
  else if 'a' ≤ c ∧ c ≤ 'f' then some (c.toNat - 87)
  else if 'A' ≤ c ∧ c ≤ 'F' then some (c.toNat - 55)
  else none

/-- Percent decoding over a character list, modelling the JS builtin
decodeURIComponent: every percent sign must be followed by exactly two hex
digits, otherwise the builtin throws URIError (modelled as none).
Simplification: only single-byte (ASCII) escapes are accepted; multi-byte
UTF-8 escape sequences are modelled as a failure as well, which is
conservative for the theorems below (they only conclude from successful
decodes and from the malformed-percent failure, both of which agree with the
builtin). -/
def percentDecode : List Char → Option (List Char)
  | [] => some []
  | '%' :: rest =>
    match rest with
    | h1 :: h2 :: rest2 =>
      match hexVal h1, hexVal h2 with
      | some a, some b =>
        if 16 * a + b < 128 then (percentDecode rest2).map (Char.ofNat (16 * a + b) :: ·)
        else none
      | _, _ => none
    | _ => none
  | c :: rest => (percentDecode rest).map (c :: ·)

/-- decodeURIComponent on strings. -/
def decodeURIComponentJs (s : String) : Option String :=
  (percentDecode s.toList).map String.mk

/-- Outcome of DELETE /api/images/:path. -/
inductive DeleteImageResult where
  | noContent                              -- 204
  | serverError                            -- 500 Failed to delete image
deriving DecidableEq

/-- src/routes/images.ts, the delete route: decodeURIComponent the raw path
parameter (a throw lands in the catch block and yields 500), call
deleteImage, respond 204. -/
def deleteImageRoute (rawPath : String) (unlinkOutcome : Except String Unit) :
    DeleteImageResult :=
  match decodeURIComponentJs rawPath with
  | none => .serverError
  | some _imagePath =>
    match deleteImage unlinkOutcome with
    | .ok _ => .noContent
    | .error _ => .serverError

/- ================= generation client (src/services/gemini.ts) =========== -/

/-- Optional inline image payload of one response part. -/
structure GeminiPart where
  inlineDataContent : Option String        -- part.inlineData?.data
deriving DecidableEq

structure GeminiContent where
  parts : Option (List GeminiPart)
deriving DecidableEq

structure GeminiCandidate where
  content : Option GeminiContent
deriving DecidableEq

structure GeminiResponse where
  candidates : Option (List GeminiCandidate)
deriving DecidableEq

/-- The scan `response.candidates?.[0]?.content?.parts` followed by the loop
returning the first part whose `inlineData.data` is truthy (a present,
non-empty string). -/
def firstInlineImage (response : GeminiResponse) : Option String :=
  match response.candidates with
  | none => none
  | some cands =>
    match cands.head? with
    | none => none
    | some cand =>
      match cand.content with
      | none => none
      | some content =>
        match content.parts with
        | none => none
        | some parts =>
          parts.findSome? (fun part =>
            match part.inlineDataContent with
            | some d => if d.isEmpty then none else some d
            | none => none)

/-- src/services/gemini.ts, generatePanelImage, lines 322-360: the outcome of
the awaited `ai.models.generateContent` call is a parameter; a successful
response with inline image data yields a data URL, any error and any
response without image data fall back to the original reference image.
The prompt construction preceding the call only feeds the external request
and cannot influence this result. -/
def generatePanelImage (originalImageBase64 : String)
    (callOutcome : Except String GeminiResponse) : String :=
  match callOutcome with
  | .error _ => originalImageBase64
  | .ok response =>
    match firstInlineImage response with
    | some d => "data:image/png;base64," ++ d
    | none => originalImageBase64

/- ================= generate route (src/routes/comics.ts) ================ -/

/-- One scene/narration pair of the generated script. -/
structure ScriptPanel where
  scene : String
  narration : String
deriving DecidableEq

structure ScriptPanels where
  box1 : ScriptPanel
  box2 : ScriptPanel
  box3 : ScriptPanel
  box4 : ScriptPanel
  box5 : ScriptPanel
deriving DecidableEq

structure ScriptResult where
  title : String
  panels : ScriptPanels
deriving DecidableEq

/-- A panel of the generate response: the script panel spread together with
the imageUrl produced by the fan-out. -/
structure PanelOut where
  scene : String
  narration : String
  imageUrl : String
deriving DecidableEq

structure PanelsOut where
  box1 : PanelOut
  box2 : PanelOut
  box3 : PanelOut
  box4 : PanelOut
  box5 : PanelOut
deriving DecidableEq

/-- Positional projection used to state theorems uniformly over the five
boxes. -/
def panelAt (p : PanelsOut) : Fin 5 → PanelOut
  | 0 => p.box1
  | 1 => p.box2
  | 2 => p.box3
  | 3 => p.box4
  | 4 => p.box5

def scriptPanelAt (p : ScriptPanels) : Fin 5 → ScriptPanel
  | 0 => p.box1
  | 1 => p.box2
  | 2 => p.box3
  | 3 => p.box4
  | 4 => p.box5

/-- Request body of POST /api/comics/generate.  A missing field is none; a
present-but-non-array characterNames behaves like a missing one (both reach
the same 400 branch) and is folded into none. -/
structure GenRequest where
  category : Option String
  sourceType : Option String
  imageBase64 : Option String
  characterNames : Option (List String)
deriving DecidableEq

/-- Log entry for an outbound generative-AI call. -/
inductive AiCall where
  | script
  | panelImage (idx : Nat)
deriving DecidableEq

inductive GenOut where
  | badRequest (msg : String)              -- 400
  | serverError (msg : String)             -- 500, from the catch block
  | ok (title : String) (panels : PanelsOut)
deriving DecidableEq

/-- src/routes/comics.ts, POST /generate.  `scriptOutcome` is the result of
generateComicScript (a throw propagates to the catch block and yields 500);
`imgOutcome i` is the transport outcome of the i-th panel image call.  The
second component is the log of generative-AI calls actually issued, in
order. -/
def generateComic (req : GenRequest) (scriptOutcome : Except String ScriptResult)
    (imgOutcome : Fin 5 → Except String GeminiResponse) : GenOut × List AiCall :=
  match req.category, req.sourceType, req.imageBase64, req.characterNames with
  | some category, some sourceType, some imageBase64, some characterNames =>
    if category.isEmpty || sourceType.isEmpty || imageBase64.isEmpty then
      (.badRequest "Missing required fields", [])
    else if characterNames.length == 0 || !(jsTruthy characterNames.head?) then
      (.badRequest "At least one character name is required", [])
    else
      match scriptOutcome with
      | .error e => (.serverError e, [.script])
      | .ok script =>
        let img1 := generatePanelImage imageBase64 (imgOutcome 0)
        let img2 := generatePanelImage imageBase64 (imgOutcome 1)
        let img3 := generatePanelImage imageBase64 (imgOutcome 2)
        let img4 := generatePanelImage imageBase64 (imgOutcome 3)
        let img5 := generatePanelImage imageBase64 (imgOutcome 4)
        let panelsWithImages : PanelsOut :=
          { box1 := { scene := script.panels.box1.scene, narration := script.panels.box1.narration, imageUrl := img1 }
            box2 := { scene := script.panels.box2.scene, narration := script.panels.box2.narration, imageUrl := img2 }
            box3 := { scene := script.panels.box3.scene, narration := script.panels.box3.narration, imageUrl := img3 }
            box4 := { scene := script.panels.box4.scene, narration := script.panels.box4.narration, imageUrl := img4 }
            box5 := { scene := script.panels.box5.scene, narration := script.panels.box5.narration, imageUrl := img5 } }
        (.ok script.title panelsWithImages,
          [.script, .panelImage 1, .panelImage 2, .panelImage 3, .panelImage 4, .panelImage 5])
  | _, _, _, _ => (.badRequest "Missing required fields", [])

/- ================= comics table and CRUD (src/routes/comics.ts) ========= -/

/-- Value of a decimal digit run (most significant first). -/
def digitsToNat (ds : List Char) : Nat :=
  ds.foldl (fun acc c => acc * 10 + (c.toNat - 48)) 0

/-- JS parseInt with radix 10: skip leading whitespace (modelled as spaces),
an optional sign, then a maximal run of decimal digits; NaN (none) when no
digit follows. -/
def parseIntJs (s : String) : Option Int :=
  let cs := s.toList.dropWhile (fun c => c = ' ')
  match cs with
  | '-' :: rest =>
    let ds := rest.takeWhile Char.isDigit
    if ds.isEmpty then none else some (-(digitsToNat ds : Int))
  | '+' :: rest =>
    let ds := rest.takeWhile Char.isDigit
    if ds.isEmpty then none else some (digitsToNat ds : Int)
  | _ =>
    let ds := cs.takeWhile Char.isDigit
    if ds.isEmpty then none else some (digitsToNat ds : Int)

/-- MySQL comparison of an INT column with a string parameter (`id = ?` with
a JS string bound): both sides are coerced to numbers; the string is read as
leading spaces, an optional sign, decimal digits, an optional fraction, and
any trailing garbage is ignored (a string with no leading number coerces to
0).  Exponent forms are not modelled.  The comparison holds when the coerced
value equals the column value exactly. -/
def mysqlStrEqNat (n : Nat) (s : String) : Bool :=
  let cs := s.toList.dropWhile (fun c => c = ' ')
  let signed : Bool × List Char :=
    match cs with
    | '-' :: rest => (true, rest)
    | '+' :: rest => (false, rest)
    | _ => (false, cs)
  let intDigits := signed.2.takeWhile Char.isDigit
  let afterInt := signed.2.dropWhile Char.isDigit
  let fracDigits : List Char :=
    match afterInt with
    | '.' :: r => r.takeWhile Char.isDigit
    | _ => []
  let fracZero := fracDigits.all (fun c => c = '0')
  fracZero && (if signed.1 then digitsToNat intDigits == 0 && n == 0
               else digitsToNat intDigits == n)

/-- A row of the comics table (002_create_comics_table.sql).  character_names
and panels are JSON columns holding serialized text; created_at/updated_at
are timestamps. -/
structure ComicRow where
  id : Nat
  userId : Nat
  title : String
  category : String
  sourceType : String
  characterNames : String
  originalImage : String
  panels : String
  createdAt : Nat
  updatedAt : Nat
deriving DecidableEq

/-- Row filter of the GET /:id query:
`(id = ? OR id = ?) AND user_id = ?` bound to [id, parseInt(id, 10), userId].
`k` is the parseInt value. -/
def getRowFilter (uid : Nat) (idStr : String) (k : Int) (r : ComicRow) : Bool :=
  (mysqlStrEqNat r.id idStr || ((r.id : Int) == k)) && r.userId == uid

/-- Row filter shared by the PUT existence check, the UPDATE statement and
the DELETE statement: `id = ? AND user_id = ?` bound to the raw id string. -/
def rawRowFilter (uid : Nat) (idStr : String) (r : ComicRow) : Bool :=
  mysqlStrEqNat r.id idStr && r.userId == uid

inductive GetComicResult where
  | serverError                            -- 500 (the query itself failed)
  | notFound                               -- 404 Comic not found
  | found (row : ComicRow)                 -- 200, response built from rows[0]
deriving DecidableEq

/-- src/routes/comics.ts, GET /:id, lines 44-53: the dual-format lookup and
the 404 decision.  When parseInt yields NaN the bound parameter is not a
valid number and the query errors, landing in the catch block (500).  The
response shaping on the found row (JSON field parsing and URL conversion) is
response formatting only and is not modelled. -/
def getComic (uid : Nat) (idStr : String) (db : List ComicRow) : GetComicResult :=
  match parseIntJs idStr with
  | none => .serverError
  | some k =>
    match db.find? (getRowFilter uid idStr k) with
    | none => .notFound
    | some row => .found row

/-- Summary entry of GET /api/comics. -/
structure ComicSummary where
  id : String
  title : String
  category : String
  createdAt : Nat
deriving DecidableEq

/-- src/routes/comics.ts, GET /: comics of the caller only, newest first,
mapped to summary fields.  Always a 200 response (first component). -/
def listComicsRoute (uid : Nat) (db : List ComicRow) : Nat × List ComicSummary :=
  let rows := (db.filter (fun r => r.userId == uid)).insertionSort
    (fun a b => b.createdAt ≤ a.createdAt)
  (200, rows.map (fun r =>
    { id := toString r.id, title := r.title, category := r.category, createdAt := r.createdAt }))

/-- JSON string escaping (quote and backslash; control characters left as
is, which the claims never exercise). -/
def jsonEscape (s : String) : String :=
  String.mk (s.toList.foldr
    (fun c acc => if c = '"' ∨ c = '\\' then '\\' :: c :: acc else c :: acc) [])

def jsonOfString (s : String) : String :=
  "\"" ++ jsonEscape s ++ "\""

/-- JSON.stringify of a string array. -/
def jsonOfStringList (xs : List String) : String :=
  "[" ++ String.intercalate "," (xs.map jsonOfString) ++ "]"

/-- Panel object of a PUT body; absent properties are omitted by
JSON.stringify. -/
structure PanelPayload where
  scene : Option String
  narration : Option String
  imageUrl : Option String
deriving DecidableEq

def jsonOfPanelPayload (p : PanelPayload) : String :=
  let fields := List.filterMap id
    [ p.scene.map (fun v => "\"scene\":" ++ jsonOfString v),
      p.narration.map (fun v => "\"narration\":" ++ jsonOfString v),
      p.imageUrl.map (fun v => "\"imageUrl\":" ++ jsonOfString v) ]
  "\x7b" ++ String.intercalate "," fields ++ "\x7d"

structure PanelsPayload where
  box1 : PanelPayload
  box2 : PanelPayload
  box3 : PanelPayload
  box4 : PanelPayload
  box5 : PanelPayload
deriving DecidableEq

def jsonOfPanelsPayload (p : PanelsPayload) : String :=
  "\x7b\"box1\":" ++ jsonOfPanelPayload p.box1 ++
  ",\"box2\":" ++ jsonOfPanelPayload p.box2 ++
  ",\"box3\":" ++ jsonOfPanelPayload p.box3 ++
  ",\"box4\":" ++ jsonOfPanelPayload p.box4 ++
  ",\"box5\":" ++ jsonOfPanelPayload p.box5 ++ "\x7d"

/-- PUT /:id request body: every mutable field optional (undefined is
skipped by the dynamic update builder). -/
structure UpdateBody where
  title : Option String
  category : Option String
  sourceType : Option String
  characterNames : Option (List String)
  originalImage : Option String
  panels : Option PanelsPayload
deriving DecidableEq

/-- Whether the dynamically built updates list is non-empty, in the order
the source pushes the clauses. -/
def bodyHasUpdates (b : UpdateBody) : Bool :=
  b.title.isSome || b.category.isSome || b.sourceType.isSome ||
  b.characterNames.isSome || b.originalImage.isSome || b.panels.isSome

/-- Effect of the UPDATE statement on one matching row: every supplied field
is rewritten (characterNames and panels through JSON.stringify), updated_at
is set to NOW(), everything else is carried over. -/
def applyUpdate (b : UpdateBody) (now : Nat) (r : ComicRow) : ComicRow :=
  { r with
    title := b.title.getD r.title
    category := b.category.getD r.category
    sourceType := b.sourceType.getD r.sourceType
    characterNames := (b.characterNames.map jsonOfStringList).getD r.characterNames
    originalImage := b.originalImage.getD r.originalImage
    panels := (b.panels.map jsonOfPanelsPayload).getD r.panels
    updatedAt := now }

inductive UpdateResult where
  | notFound                               -- 404 Comic not found
  | badRequest                             -- 400 No fields to update
  | serverError                            -- 500 (refetch found no row)
  | ok (row : ComicRow)                    -- 200, response built from refetch
deriving DecidableEq

/-- src/routes/comics.ts, PUT /:id: existence check on the raw-string id
filter, 400 when no field is supplied, otherwise the dynamic UPDATE followed
by a refetch of the row.  The response shaping on the refetched row is not
modelled.  The refetch cannot miss (the update preserves id and user_id);
its miss branch mirrors the crash-into-catch of `rows[0]` being undefined. -/
def updateComic (uid : Nat) (idStr : String) (b : UpdateBody) (now : Nat)
    (db : List ComicRow) : UpdateResult × List ComicRow :=
  match db.find? (rawRowFilter uid idStr) with
  | none => (.notFound, db)
  | some _ =>
    if !(bodyHasUpdates b) then (.badRequest, db)
    else
      let db2 := db.map (fun r => if rawRowFilter uid idStr r then applyUpdate b now r else r)
      match db2.find? (rawRowFilter uid idStr) with
      | some row => (.ok row, db2)
      | none => (.serverError, db2)

inductive DeleteComicResult where
  | notFound                               -- 404 Comic not found
  | noContent                              -- 204
deriving DecidableEq

/-- src/routes/comics.ts, DELETE /:id: one DELETE statement on the
raw-string id filter; 404 exactly when affectedRows is zero. -/
def deleteComic (uid : Nat) (idStr : String) (db : List ComicRow) :
    DeleteComicResult × List ComicRow :=
  let remaining := db.filter (fun r => !(rawRowFilter uid idStr r))
  if db.length - remaining.length == 0 then (.notFound, db)
  else (.noContent, remaining)

/- ======================= helper lemmas ================================== -/

theorem string_append_cancel_left {p a b : String} (h : p ++ a = p ++ b) : a = b := by
  have h2 := congrArg String.data h
  rw [String.data_append, String.data_append] at h2
  exact String.ext (List.append_cancel_left h2)

theorem jsStartsWith_append (s t pre : String) (h : jsStartsWith s pre = true) :
    jsStartsWith (s ++ t) pre = true := by
  simp only [jsStartsWith, List.isPrefixOf_iff_prefix] at h ⊢
  have : s.toList ++ t.toList = (s ++ t).toList := (String.data_append s t).symm
  exact this ▸ h.trans (List.prefix_append s.toList t.toList)

theorem jsStartsWith_dropOneTrailingSlash (s : String) (h : jsStartsWith s "http" = true) :
    jsStartsWith (dropOneTrailingSlash s) "http" = true := by
  simp only [jsStartsWith, List.isPrefixOf_iff_prefix] at h ⊢
  unfold dropOneTrailingSlash
  cases hL : s.toList.getLast? with
  | none => simpa [jsStartsWith, List.isPrefixOf_iff_prefix] using h
  | some c =>
    by_cases hc : c = '/'
    · simp only [hc, if_pos rfl]
      obtain ⟨u, hu⟩ := h
      have hune : u ≠ [] := by
        intro hnil
        rw [hnil, List.append_nil] at hu
        have hp : s.toList.getLast? = some 'p' := by rw [← hu]; rfl
        rw [hp] at hL
        simp only [Option.some.injEq] at hL
        rw [← hL] at hc
        exact absurd hc (by decide)
      show ("http".toList <+: (String.mk s.toList.dropLast).toList)
      have : (String.mk s.toList.dropLast).toList = s.toList.dropLast := rfl
      rw [this, ← hu, List.dropLast_append_of_ne_nil _ hune]
      exact List.prefix_append _ _
    · simpa [hc, jsStartsWith, List.isPrefixOf_iff_prefix] using h

/- ======================= claim theorems ================================= -/

/-- C2: with the JWT secret configured, the auth gate responds 401 when the
Authorization header yields no bearer token, responds 403 when a token is
present but verification fails, attaches the embedded user id and email and
proceeds to the handler exactly when verification succeeds, and proceeds in
no other case. -/
theorem authGate_contract (header : Option String) (secret : String)
    (verify : String → String → Option (String × String))
    (hs : secret.isEmpty = false) :
    (extractBearerToken header = none →
      authenticateToken header (some secret) verify = .unauthenticated)
    ∧ (∀ t, extractBearerToken header = some t → verify t secret = none →
      authenticateToken header (some secret) verify = .forbidden)
    ∧ (∀ t u e, extractBearerToken header = some t → verify t secret = some (u, e) →
      authenticateToken header (some secret) verify = .proceed u e)
    ∧ (∀ u e, authenticateToken header (some secret) verify = .proceed u e →
      ∃ t, extractBearerToken header = some t ∧ verify t secret = some (u, e)) := by
  refine ⟨?_, ?_, ?_, ?_⟩
  · intro hE
    simp [authenticateToken, hE]
  · intro t hE hv
    simp [authenticateToken, hE, hs, hv]
  · intro t u e hE hv
    simp [authenticateToken, hE, hs, hv]
  · intro u e hP
    unfold authenticateToken at hP
    cases hE : extractBearerToken header with
    | none => rw [hE] at hP; exact absurd hP (by simp)
    | some t =>
      rw [hE] at hP
      simp only [hs, Bool.false_eq_true, if_false] at hP
      cases hv : verify t secret with
      | none => rw [hv] at hP; exact absurd hP (by simp)
      | some p =>
        rw [hv] at hP
        simp only [AuthResult.proceed.injEq] at hP
        obtain ⟨h1, h2⟩ := hP
        subst h1
        subst h2
        exact ⟨t, rfl, by rw [hv]⟩

/-- C2 witness: a well-formed bearer token that verifies is attached and the
request proceeds. -/
theorem authGate_contract_witness :
    authenticateToken (some "Bearer tok") (some "secret")
      (fun t _ => if t == "tok" then some ("u1", "e1") else none) = .proceed "u1" "e1" :=
  (authGate_contract (some "Bearer tok") "secret"
    (fun t _ => if t == "tok" then some ("u1", "e1") else none)
    (by decide)).2.2.1 "tok" "u1" "e1" (by decide) (by decide)

/-- C3 counterexample: the claim quantifies over every possible password
string, any length or content.  For the empty password the handler takes the
`if (!email || !password)` branch and responds 400, not 401 invalid
credentials, even though the email matches a stored user and the hash
comparison rejects every password. -/
theorem login_empty_password_cx :
    login "a@b.c" "" [⟨1, "a@b.c", "hash", "n"⟩] (fun _ _ => false) (some "s")
      (fun _ _ => "tok") = .badRequest
    ∧ login "a@b.c" "" [⟨1, "a@b.c", "hash", "n"⟩] (fun _ _ => false) (some "s")
      (fun _ _ => "tok") ≠ .invalidCredentials := by
  exact ⟨by decide, by decide⟩

/-- C3 amended: for every non-empty email and non-empty password, a login
whose email matches a stored user but whose password fails the bcrypt
comparison responds 401 invalid credentials, and so does a login whose email
matches no user. -/
theorem login_invalid_credentials (email password : String) (users : List UserRow)
    (bcryptCompare : String → String → Bool) (jwtSecretEnv : Option String)
    (sign : String → String → String)
    (he : email.isEmpty = false) (hp : password.isEmpty = false) :
    (users.find? (fun u => u.email == email) = none →
      login email password users bcryptCompare jwtSecretEnv sign = .invalidCredentials)
    ∧ (∀ u, users.find? (fun u2 => u2.email == email) = some u →
      bcryptCompare password u.passwordHash = false →
      login email password users bcryptCompare jwtSecretEnv sign = .invalidCredentials) := by
  constructor
  · intro hfind
    simp [login, he, hp, hfind]
  · intro u hfind hcmp
    simp [login, he, hp, hfind, hcmp]

/-- C3 witness: a wrong non-empty password against a matching user, and a
login against an unknown email, both yield 401 invalid credentials. -/
theorem login_invalid_credentials_witness :
    login "a@b.c" "wrong" [⟨1, "a@b.c", "hash", "n"⟩] (fun _ _ => false) (some "s")
      (fun _ _ => "tok") = .invalidCredentials
    ∧ login "x@y.z" "wrong" [⟨1, "a@b.c", "hash", "n"⟩] (fun _ _ => false) (some "s")
      (fun _ _ => "tok") = .invalidCredentials :=
  ⟨(login_invalid_credentials "a@b.c" "wrong" [⟨1, "a@b.c", "hash", "n"⟩]
      (fun _ _ => false) (some "s") (fun _ _ => "tok") (by decide) (by decide)).2
      ⟨1, "a@b.c", "hash", "n"⟩ (by decide) (by decide),
   (login_invalid_credentials "x@y.z" "wrong" [⟨1, "a@b.c", "hash", "n"⟩]
      (fun _ _ => false) (some "s") (fun _ _ => "tok") (by decide) (by decide)).1
      (by decide)⟩

/-- C7 counterexample: the claim asserts a 204 for every image path.  The
raw path parameter "%" (a request against /api/images/%25) makes
decodeURIComponent throw before deleteImage is reached, and the route
responds 500, even with the filesystem outcome held fixed. -/
theorem deleteImage_route_percent_cx :
    deleteImageRoute "%" (.error "ENOENT") = .serverError
    ∧ deleteImageRoute "%" (.error "ENOENT") ≠ .noContent := by
  exact ⟨by decide, by decide⟩

/-- C7 amended: deleteImage swallows every filesystem error (it always
resolves), and the delete route responds 204 for every path parameter whose
percent-decoding succeeds - in particular for any stored path that no longer
exists on disk - whatever the fs.unlink outcome. -/
theorem deleteImage_best_effort :
    (∀ o : Except String Unit, deleteImage o = .ok ())
    ∧ (∀ p q : String, ∀ o : Except String Unit,
      decodeURIComponentJs p = some q → deleteImageRoute p o = .noContent) := by
  constructor
  · intro o
    cases o <;> rfl
  · intro p q o hdec
    simp [deleteImageRoute, hdec, deleteImage]
    cases o <;> simp

/-- C7 witness: deleting a path that decodes fine but is absent on disk
(fs.unlink rejects with ENOENT) still responds 204. -/
theorem deleteImage_best_effort_witness :
    deleteImageRoute "images/missing.png" (.error "ENOENT") = .noContent :=
  deleteImage_best_effort.2 "images/missing.png" "images/missing.png" (.error "ENOENT")
    (by decide)

/-- C10: when the configured base URL starts with "http", getImageUrl is
idempotent: every output either was already an http-prefixed input returned
unchanged, or is built on the base URL and hence starts with "http", so a
second application returns it as is. -/
theorem getImageUrl_idempotent (backendUrlEnv apiUrlEnv : Option String)
    (h : jsStartsWith (effectiveBackendUrl backendUrlEnv apiUrlEnv) "http" = true) :
    ∀ p, getImageUrl backendUrlEnv apiUrlEnv (getImageUrl backendUrlEnv apiUrlEnv p) =
      getImageUrl backendUrlEnv apiUrlEnv p := by
  intro p
  have hbase : jsStartsWith
      (dropOneTrailingSlash (envOr backendUrlEnv (envOr apiUrlEnv "https://api.mycomic.online")))
      "http" = true := by
    have hd := jsStartsWith_dropOneTrailingSlash _ h
    simpa [effectiveBackendUrl] using hd
  have hret : ∀ s, jsStartsWith s "http" = true →
      getImageUrl backendUrlEnv apiUrlEnv s = s := by
    intro s hs
    unfold getImageUrl
    simp [hs]
  have hout : jsStartsWith (getImageUrl backendUrlEnv apiUrlEnv p) "http" = true := by
    unfold getImageUrl
    split
    next hc => exact hc
    next hc =>
      split
      · exact jsStartsWith_append _ _ _ hbase
      · split
        · exact jsStartsWith_append _ _ _ hbase
        · split
          · exact jsStartsWith_append _ _ _ (jsStartsWith_append _ _ _ hbase)
          · exact jsStartsWith_append _ _ _ (jsStartsWith_append _ _ _ hbase)
  exact hret _ hout

/-- C10 witness: applying getImageUrl twice to a bare relative path under
the default base URL returns the single-application result unchanged. -/
theorem getImageUrl_idempotent_witness :
    getImageUrl none none (getImageUrl none none "images/a.png") =
      getImageUrl none none "images/a.png" :=
  getImageUrl_idempotent none none (by decide) "images/a.png"

/-- C4: a generate request whose characterNames array is empty, or holds
only empty names, is rejected with a 400 validation error and the list of
generative-AI calls issued is empty, whatever the remaining fields hold. -/
theorem generate_validates_before_ai (cat st img : Option String) (ns : List String)
    (scriptOutcome : Except String ScriptResult)
    (imgOutcome : Fin 5 → Except String GeminiResponse)
    (h : ns = [] ∨ ∀ n ∈ ns, n = "") :
    (∃ msg, (generateComic ⟨cat, st, img, some ns⟩ scriptOutcome imgOutcome).1 = .badRequest msg)
    ∧ (generateComic ⟨cat, st, img, some ns⟩ scriptOutcome imgOutcome).2 = [] := by
  have hhead : (ns.length == 0 || !(jsTruthy ns.head?)) = true := by
    rcases h with h | h
    · subst h; rfl
    · cases ns with
      | nil => rfl
      | cons a t =>
        have ha : a = "" := h a (by simp)
        subst ha
        rfl
  cases cat with
  | none => exact ⟨⟨"Missing required fields", rfl⟩, rfl⟩
  | some c =>
    cases st with
    | none => exact ⟨⟨"Missing required fields", rfl⟩, rfl⟩
    | some s =>
      cases img with
      | none => exact ⟨⟨"Missing required fields", rfl⟩, rfl⟩
      | some i =>
        by_cases hc : (c.isEmpty || s.isEmpty || i.isEmpty) = true
        · exact ⟨⟨"Missing required fields", by simp [generateComic, hc]⟩,
            by simp [generateComic, hc]⟩
        · have hc2 : (c.isEmpty || s.isEmpty || i.isEmpty) = false := by
            simpa using hc
          exact ⟨⟨"At least one character name is required",
              by simp [generateComic, hc2, hhead]⟩,
            by simp [generateComic, hc2, hhead]⟩

/-- C4 witness: a generate request with an empty characterNames array is
rejected 400 with no generative-AI call issued. -/
theorem generate_validates_before_ai_witness :
    (∃ msg, (generateComic ⟨some "Adventure", some "AI", some "img", some []⟩
      (.error "e") (fun _ => .error "e")).1 = .badRequest msg)
    ∧ (generateComic ⟨some "Adventure", some "AI", some "img", some []⟩
      (.error "e") (fun _ => .error "e")).2 = [] :=
  generate_validates_before_ai (some "Adventure") (some "AI") (some "img") []
    (.error "e") (fun _ => .error "e") (Or.inl rfl)

/-- C5: when all five panel generations succeed with image data d 0 .. d 4,
the generate response attaches the result of panel generation i to box i+1
in positional order (each box keeps its own scene and narration), and
pairwise distinct data yields pairwise distinct image references. -/
theorem generate_fanout_positional (cat st img : String) (ns : List String)
    (script : ScriptResult) (imgOutcome : Fin 5 → Except String GeminiResponse)
    (d : Fin 5 → String)
    (hcat : cat.isEmpty = false) (hst : st.isEmpty = false) (himg : img.isEmpty = false)
    (hns : jsTruthy ns.head? = true)
    (hok : ∀ i : Fin 5, ∃ r, imgOutcome i = .ok r ∧ firstInlineImage r = some (d i)) :
    (generateComic ⟨some cat, some st, some img, some ns⟩ (.ok script) imgOutcome).1 =
      .ok script.title
        ⟨⟨script.panels.box1.scene, script.panels.box1.narration, "data:image/png;base64," ++ d 0⟩,
         ⟨script.panels.box2.scene, script.panels.box2.narration, "data:image/png;base64," ++ d 1⟩,
         ⟨script.panels.box3.scene, script.panels.box3.narration, "data:image/png;base64," ++ d 2⟩,
         ⟨script.panels.box4.scene, script.panels.box4.narration, "data:image/png;base64," ++ d 3⟩,
         ⟨script.panels.box5.scene, script.panels.box5.narration, "data:image/png;base64," ++ d 4⟩⟩
    ∧ (List.Pairwise (fun a b => a ≠ b) [d 0, d 1, d 2, d 3, d 4] →
      List.Pairwise (fun a b => a ≠ b)
        ["data:image/png;base64," ++ d 0, "data:image/png;base64," ++ d 1,
         "data:image/png;base64," ++ d 2, "data:image/png;base64," ++ d 3,
         "data:image/png;base64," ++ d 4]) := by
  have hc2 : (cat.isEmpty || st.isEmpty || img.isEmpty) = false := by
    simp [hcat, hst, himg]
  have hnsne : ns ≠ [] := by
    intro hnil
    rw [hnil] at hns
    simp [jsTruthy] at hns
  have hlen : (ns.length == 0 || !(jsTruthy ns.head?)) = false := by
    simp [hns, List.length_eq_zero, hnsne]
  have hgen : ∀ i : Fin 5, generatePanelImage img (imgOutcome i) =
      "data:image/png;base64," ++ d i := by
    intro i
    obtain ⟨r, hr, hd⟩ := hok i
    rw [hr]
    simp [generatePanelImage, hd]
  constructor
  · simp [generateComic, hc2, hlen, hgen 0, hgen 1, hgen 2, hgen 3, hgen 4]
  · intro hp
    have hmap : ["data:image/png;base64," ++ d 0, "data:image/png;base64," ++ d 1,
        "data:image/png;base64," ++ d 2, "data:image/png;base64," ++ d 3,
        "data:image/png;base64," ++ d 4] =
        List.map (fun x => "data:image/png;base64," ++ x) [d 0, d 1, d 2, d 3, d 4] := rfl
    rw [hmap, List.pairwise_map]
    exact hp.imp (fun hab hEq => hab (string_append_cancel_left hEq))

/-- C5 witness: five successful generations with data 0..4 land on
box1..box5 in order. -/
theorem generate_fanout_positional_witness :
    (generateComic ⟨some "Adventure", some "AI", some "img", some ["Alice"]⟩
      (.ok ⟨"T", ⟨⟨"s1", "n1"⟩, ⟨"s2", "n2"⟩, ⟨"s3", "n3"⟩, ⟨"s4", "n4"⟩, ⟨"s5", "n5"⟩⟩⟩)
      (fun i => .ok ⟨some [⟨some ⟨some [⟨some (toString i.val)⟩]⟩⟩]⟩)).1 =
    .ok "T"
      ⟨⟨"s1", "n1", "data:image/png;base64,0"⟩, ⟨"s2", "n2", "data:image/png;base64,1"⟩,
       ⟨"s3", "n3", "data:image/png;base64,2"⟩, ⟨"s4", "n4", "data:image/png;base64,3"⟩,
       ⟨"s5", "n5", "data:image/png;base64,4"⟩⟩ :=
  (generate_fanout_positional "Adventure" "AI" "img" ["Alice"]
    ⟨"T", ⟨⟨"s1", "n1"⟩, ⟨"s2", "n2"⟩, ⟨"s3", "n3"⟩, ⟨"s4", "n4"⟩, ⟨"s5", "n5"⟩⟩⟩
    (fun i => .ok ⟨some [⟨some ⟨some [⟨some (toString i.val)⟩]⟩⟩]⟩)
    (fun i => toString i.val)
    (by decide) (by decide) (by decide) (by decide)
    (fun i => ⟨⟨some [⟨some ⟨some [⟨some (toString i.val)⟩]⟩⟩]⟩, rfl,
      by fin_cases i <;> rfl⟩)).1

/-- C6: generatePanelImage falls back to the original reference image both
when the model call throws and when the response carries no image data; in
the generate route the overall call then still succeeds, the failing panel
holds the original input image, and every other panel holds its own
generated image. -/
theorem generatePanelImage_fallback (orig cat st img : String) (ns : List String)
    (script : ScriptResult) (imgOutcome : Fin 5 → Except String GeminiResponse)
    (j : Fin 5)
    (hcat : cat.isEmpty = false) (hst : st.isEmpty = false) (himg : img.isEmpty = false)
    (hns : jsTruthy ns.head? = true)
    (hj : (∃ e, imgOutcome j = .error e)
      ∨ (∃ r, imgOutcome j = .ok r ∧ firstInlineImage r = none)) :
    (∀ e, generatePanelImage orig (.error e) = orig)
    ∧ (∀ r, firstInlineImage r = none → generatePanelImage orig (.ok r) = orig)
    ∧ ∃ panels,
      (generateComic ⟨some cat, some st, some img, some ns⟩ (.ok script) imgOutcome).1 =
        .ok script.title panels
      ∧ (panelAt panels j).imageUrl = img
      ∧ ∀ i : Fin 5, i ≠ j → ∀ r dta, imgOutcome i = .ok r → firstInlineImage r = some dta →
        (panelAt panels i).imageUrl = "data:image/png;base64," ++ dta := by
  have hc2 : (cat.isEmpty || st.isEmpty || img.isEmpty) = false := by
    simp [hcat, hst, himg]
  have hnsne : ns ≠ [] := by
    intro hnil
    rw [hnil] at hns
    simp [jsTruthy] at hns
  have hlen : (ns.length == 0 || !(jsTruthy ns.head?)) = false := by
    simp [hns, List.length_eq_zero, hnsne]
  refine ⟨fun e => rfl, fun r hr => by simp [generatePanelImage, hr], ?_⟩
  refine ⟨⟨⟨script.panels.box1.scene, script.panels.box1.narration,
      generatePanelImage img (imgOutcome 0)⟩,
    ⟨script.panels.box2.scene, script.panels.box2.narration,
      generatePanelImage img (imgOutcome 1)⟩,
    ⟨script.panels.box3.scene, script.panels.box3.narration,
      generatePanelImage img (imgOutcome 2)⟩,
    ⟨script.panels.box4.scene, script.panels.box4.narration,
      generatePanelImage img (imgOutcome 3)⟩,
    ⟨script.panels.box5.scene, script.panels.box5.narration,
      generatePanelImage img (imgOutcome 4)⟩⟩, ?_, ?_, ?_⟩
  · simp [generateComic, hc2, hlen]
  · have hjv : generatePanelImage img (imgOutcome j) = img := by
      rcases hj with ⟨e, he⟩ | ⟨r, hr, hni⟩
      · rw [he]
        rfl
      · rw [hr]
        simp [generatePanelImage, hni]
    fin_cases j <;> simpa [panelAt] using hjv
  · intro i _ r dta hr hd
    have hiv : generatePanelImage img (imgOutcome i) = "data:image/png;base64," ++ dta := by
      rw [hr]
      simp [generatePanelImage, hd]
    fin_cases i <;> simpa [panelAt] using hiv

/-- C6 witness: panel 3 fails with a thrown error, the other four succeed;
the call succeeds and box3 carries the original image. -/
theorem generatePanelImage_fallback_witness :
    ∃ panels,
      (generateComic ⟨some "Adventure", some "AI", some "img", some ["Alice"]⟩
        (.ok ⟨"T", ⟨⟨"s1", "n1"⟩, ⟨"s2", "n2"⟩, ⟨"s3", "n3"⟩, ⟨"s4", "n4"⟩, ⟨"s5", "n5"⟩⟩⟩)
        (fun i => if i.val == 2 then .error "boom"
          else .ok ⟨some [⟨some ⟨some [⟨some "D"⟩]⟩⟩]⟩)).1 = .ok "T" panels
      ∧ (panelAt panels 2).imageUrl = "img" := by
  obtain ⟨panels, h1, h2, _⟩ :=
    (generatePanelImage_fallback "img" "Adventure" "AI" "img" ["Alice"]
      ⟨"T", ⟨⟨"s1", "n1"⟩, ⟨"s2", "n2"⟩, ⟨"s3", "n3"⟩, ⟨"s4", "n4"⟩, ⟨"s5", "n5"⟩⟩⟩
      (fun i => if i.val == 2 then .error "boom"
        else .ok ⟨some [⟨some ⟨some [⟨some "D"⟩]⟩⟩]⟩)
      2 (by decide) (by decide) (by decide) (by decide)
      (Or.inl ⟨"boom", rfl⟩)).2.2
  exact ⟨panels, h1, h2⟩

theorem no_raw_match_iff (uid : Nat) (idStr : String) (db : List ComicRow) :
    (∀ x ∈ db, ¬ rawRowFilter uid idStr x = true) ↔
    ¬∃ r, r ∈ db ∧ mysqlStrEqNat r.id idStr = true ∧ r.userId = uid := by
  constructor
  · rintro hall ⟨r, hr, h1, h2⟩
    exact hall r hr (by simp [rawRowFilter, h1, h2])
  · intro hno x hx hpx
    have hx2 : mysqlStrEqNat x.id idStr = true ∧ x.userId = uid := by
      simpa [rawRowFilter, Bool.and_eq_true, beq_iff_eq] using hpx
    exact hno ⟨x, hx, hx2.1, hx2.2⟩

/-- C8: on an owned comic, an update request that supplies no mutable field
responds 400 and leaves the table unchanged; one that supplies at least one
field rewrites, on every matching row, exactly the supplied fields plus
updated_at, carrying id, owner, creation timestamp and every unsupplied
field over unchanged, and responds with the refetched row. -/
theorem updateComic_frame (uid : Nat) (idStr : String) (b : UpdateBody) (now : Nat)
    (db : List ComicRow) (r0 : ComicRow)
    (hmem : r0 ∈ db) (hmatch : rawRowFilter uid idStr r0 = true) :
    (bodyHasUpdates b = false → updateComic uid idStr b now db = (.badRequest, db))
    ∧ (bodyHasUpdates b = true →
      (updateComic uid idStr b now db).2 =
        db.map (fun r => if rawRowFilter uid idStr r then applyUpdate b now r else r)
      ∧ ∃ r2, (updateComic uid idStr b now db).1 = .ok r2)
    ∧ (∀ r : ComicRow,
      (applyUpdate b now r).id = r.id
      ∧ (applyUpdate b now r).userId = r.userId
      ∧ (applyUpdate b now r).createdAt = r.createdAt
      ∧ (applyUpdate b now r).updatedAt = now
      ∧ (b.title = none → (applyUpdate b now r).title = r.title)
      ∧ (∀ v, b.title = some v → (applyUpdate b now r).title = v)
      ∧ (b.category = none → (applyUpdate b now r).category = r.category)
      ∧ (∀ v, b.category = some v → (applyUpdate b now r).category = v)
      ∧ (b.sourceType = none → (applyUpdate b now r).sourceType = r.sourceType)
      ∧ (∀ v, b.sourceType = some v → (applyUpdate b now r).sourceType = v)
      ∧ (b.characterNames = none → (applyUpdate b now r).characterNames = r.characterNames)
      ∧ (∀ ns, b.characterNames = some ns →
        (applyUpdate b now r).characterNames = jsonOfStringList ns)
      ∧ (b.originalImage = none → (applyUpdate b now r).originalImage = r.originalImage)
      ∧ (∀ v, b.originalImage = some v → (applyUpdate b now r).originalImage = v)
      ∧ (b.panels = none → (applyUpdate b now r).panels = r.panels)
      ∧ (∀ p, b.panels = some p → (applyUpdate b now r).panels = jsonOfPanelsPayload p)) := by
  have hfind : ∃ rf, db.find? (rawRowFilter uid idStr) = some rf :=
    Option.isSome_iff_exists.mp (List.find?_isSome.mpr ⟨r0, hmem, hmatch⟩)
  obtain ⟨rf, hrf⟩ := hfind
  refine ⟨?_, ?_, ?_⟩
  · intro hbu
    simp [updateComic, hrf, hbu]
  · intro hbu
    have haru : rawRowFilter uid idStr (applyUpdate b now r0) = true := by
      simpa [rawRowFilter, applyUpdate] using hmatch
    have hmem2 : applyUpdate b now r0 ∈
        db.map (fun r => if rawRowFilter uid idStr r then applyUpdate b now r else r) := by
      have hm := List.mem_map_of_mem
        (fun r => if rawRowFilter uid idStr r then applyUpdate b now r else r) hmem
      simpa [hmatch] using hm
    have hsome : ∃ row, (db.map (fun r =>
        if rawRowFilter uid idStr r then applyUpdate b now r else r)).find?
        (rawRowFilter uid idStr) = some row :=
      Option.isSome_iff_exists.mp (List.find?_isSome.mpr ⟨_, hmem2, haru⟩)
    obtain ⟨row, hrow⟩ := hsome
    constructor
    · simp [updateComic, hrf, hbu, hrow]
    · exact ⟨row, by simp [updateComic, hrf, hbu, hrow]⟩
  · intro r
    refine ⟨rfl, rfl, rfl, rfl, ?_, ?_, ?_, ?_, ?_, ?_, ?_, ?_, ?_, ?_, ?_, ?_⟩ <;>
      first
        | (intro h; simp [applyUpdate, h])
        | (intro v h; simp [applyUpdate, h])

/-- C8 witness: updating only the title on an owned comic rewrites the title
and updated_at and keeps every other field; the route responds with the
updated row. -/
theorem updateComic_frame_witness :
    (updateComic 1 "1" ⟨some "T", none, none, none, none, none⟩ 9
      [⟨1, 1, "t", "c", "AI", "cn", "o", "p", 5, 5⟩]).2 =
      [⟨1, 1, "T", "c", "AI", "cn", "o", "p", 5, 9⟩]
    ∧ ∃ r2, (updateComic 1 "1" ⟨some "T", none, none, none, none, none⟩ 9
      [⟨1, 1, "t", "c", "AI", "cn", "o", "p", 5, 5⟩]).1 = .ok r2 := by
  have H := (updateComic_frame 1 "1" ⟨some "T", none, none, none, none, none⟩ 9
    [⟨1, 1, "t", "c", "AI", "cn", "o", "p", 5, 5⟩]
    ⟨1, 1, "t", "c", "AI", "cn", "o", "p", 5, 5⟩ (by decide) (by decide)).2.1 (by decide)
  exact ⟨H.1.trans (by decide), H.2⟩

/-- C9: the get-by-id lookup finds a row exactly when the row belongs
to the caller and its id matches the raw id string under the SQL string
comparison or equals the parseInt value, whereas the update and delete
operations report not-found exactly when no row of the caller matches the
raw string form alone. -/
theorem idMatching_forms (uid : Nat) (idStr : String) (k : Int) (b : UpdateBody)
    (now : Nat) (db : List ComicRow) (hk : parseIntJs idStr = some k) :
    ((∃ r, getComic uid idStr db = .found r) ↔
      ∃ r, r ∈ db ∧ (mysqlStrEqNat r.id idStr = true ∨ (r.id : Int) = k) ∧ r.userId = uid)
    ∧ (((updateComic uid idStr b now db).1 = .notFound) ↔
      ¬∃ r, r ∈ db ∧ mysqlStrEqNat r.id idStr = true ∧ r.userId = uid)
    ∧ (((deleteComic uid idStr db).1 = .notFound) ↔
      ¬∃ r, r ∈ db ∧ mysqlStrEqNat r.id idStr = true ∧ r.userId = uid) := by
  refine ⟨?_, ?_, ?_⟩
  · have hiff : (∃ r, getComic uid idStr db = .found r) ↔
        (db.find? (getRowFilter uid idStr k)).isSome := by
      unfold getComic
      rw [hk]
      dsimp only
      cases hf : db.find? (getRowFilter uid idStr k) <;> simp [hf]
    rw [hiff, List.find?_isSome]
    simp [getRowFilter, Bool.and_eq_true, Bool.or_eq_true, beq_iff_eq]
  · have hiff : ((updateComic uid idStr b now db).1 = .notFound) ↔
        db.find? (rawRowFilter uid idStr) = none := by
      unfold updateComic
      cases hf : db.find? (rawRowFilter uid idStr) with
      | none => simp
      | some rf =>
        simp only
        constructor
        · intro h1
          split at h1
          · simp at h1
          · split at h1 <;> simp at h1
        · intro h1
          exact absurd h1 (by simp)
    rw [hiff, List.find?_eq_none]
    exact no_raw_match_iff uid idStr db
  · have hiff : ((deleteComic uid idStr db).1 = .notFound) ↔
        (∀ x ∈ db, ¬ rawRowFilter uid idStr x = true) := by
      constructor
      · intro h1
        by_cases hc : (db.length -
            (db.filter (fun r => !rawRowFilter uid idStr r)).length == 0) = true
        · have hsub : db.length -
              (db.filter (fun r => !rawRowFilter uid idStr r)).length = 0 := by
            simpa using hc
          have hle := List.length_filter_le (fun r => !rawRowFilter uid idStr r) db
          have hlen : (db.filter (fun r => !rawRowFilter uid idStr r)).length = db.length :=
            Nat.le_antisymm hle (Nat.le_of_sub_eq_zero hsub)
          have hall := List.filter_length_eq_length.mp hlen
          intro x hx hpx
          have hbx := hall x hx
          simp [hpx] at hbx
        · exfalso
          unfold deleteComic at h1
          simp [hc] at h1
      · intro hall
        unfold deleteComic
        have hfe : db.filter (fun r => !rawRowFilter uid idStr r) = db :=
          List.filter_eq_self.mpr (fun a ha => by
            cases hb : rawRowFilter uid idStr a with
            | false => simp [hb]
            | true => exact absurd hb (hall a ha))
        simp [hfe]
    rw [hiff]
    exact no_raw_match_iff uid idStr db

/-- C9 witness: with the path id "7.5" (parseInt 7), the get lookup finds
comic 7 of the caller through the parsed-integer parameter, while the update operation,
matching the raw string only, reports not-found on the same table. -/
theorem idMatching_forms_witness :
    (∃ r, getComic 1 "7.5" [⟨7, 1, "t", "c", "AI", "cn", "o", "p", 5, 5⟩] = .found r)
    ∧ (updateComic 1 "7.5" ⟨some "T", none, none, none, none, none⟩ 9
      [⟨7, 1, "t", "c", "AI", "cn", "o", "p", 5, 5⟩]).1 = .notFound := by
  have H := idMatching_forms 1 "7.5" 7 ⟨some "T", none, none, none, none, none⟩ 9
    [⟨7, 1, "t", "c", "AI", "cn", "o", "p", 5, 5⟩] (by decide)
  constructor
  · exact H.1.mpr ⟨⟨7, 1, "t", "c", "AI", "cn", "o", "p", 5, 5⟩, by decide,
      Or.inr (by decide), rfl⟩
  · exact H.2.1.mpr (by decide)

/-- C1 counterexample: the claim includes the list operation among those
returning a 404 against a comic id of another user.  The list route takes no
comic id and always responds 200: here user 2 lists while the table holds
only a comic of user 1, and the response is 200 with an empty array, not a
404. -/
theorem list_route_not_404_cx :
    (listComicsRoute 2 [⟨1, 1, "t", "c", "AI", "cn", "o", "p", 5, 5⟩]).1 ≠ 404
    ∧ (listComicsRoute 2 [⟨1, 1, "t", "c", "AI", "cn", "o", "p", 5, 5⟩]).1 = 200
    ∧ (listComicsRoute 2 [⟨1, 1, "t", "c", "AI", "cn", "o", "p", 5, 5⟩]).2 = [] := by
  exact ⟨by decide, by decide, by decide⟩

/-- C1 amended: when every comic whose id matches the requested id (in
either matching form) belongs to user A, a different authenticated user B
gets 404 from get-by-id, update and delete, each leaving the table
unchanged, while the list route only ever shows rows owned by B itself. -/
theorem ownership_isolation (A B : Nat) (idStr : String) (k : Int) (b : UpdateBody)
    (now : Nat) (db : List ComicRow)
    (hk : parseIntJs idStr = some k) (hBA : B ≠ A)
    (hA : ∀ r, r ∈ db → (mysqlStrEqNat r.id idStr = true ∨ (r.id : Int) = k) →
      r.userId = A) :
    getComic B idStr db = .notFound
    ∧ updateComic B idStr b now db = (.notFound, db)
    ∧ deleteComic B idStr db = (.notFound, db)
    ∧ ∀ s, s ∈ (listComicsRoute B db).2 →
      ∃ r, r ∈ db ∧ r.userId = B ∧ s.id = toString r.id := by
  have hnofilter : ∀ x ∈ db, ¬ getRowFilter B idStr k x = true := by
    intro x hx hpx
    have h2 : (mysqlStrEqNat x.id idStr || ((x.id : Int) == k)) = true ∧ x.userId = B := by
      simpa [getRowFilter, Bool.and_eq_true, beq_iff_eq] using hpx
    have hor : mysqlStrEqNat x.id idStr = true ∨ (x.id : Int) = k := by
      simpa [Bool.or_eq_true, beq_iff_eq] using h2.1
    have hxa := hA x hx hor
    rw [h2.2] at hxa
    exact hBA hxa
  have hnoraw : ∀ x ∈ db, ¬ rawRowFilter B idStr x = true := by
    intro x hx hpx
    have h2 : mysqlStrEqNat x.id idStr = true ∧ x.userId = B := by
      simpa [rawRowFilter, Bool.and_eq_true, beq_iff_eq] using hpx
    have hxa := hA x hx (Or.inl h2.1)
    rw [h2.2] at hxa
    exact hBA hxa
  refine ⟨?_, ?_, ?_, ?_⟩
  · unfold getComic
    rw [hk]
    dsimp only
    rw [List.find?_eq_none.mpr hnofilter]
  · unfold updateComic
    rw [List.find?_eq_none.mpr hnoraw]
  · unfold deleteComic
    have hfe : db.filter (fun r => !rawRowFilter B idStr r) = db :=
      List.filter_eq_self.mpr (fun a ha => by
        cases hb : rawRowFilter B idStr a with
        | false => simp [hb]
        | true => exact absurd hb (hnoraw a ha))
    simp [hfe]
  · intro s hs
    simp only [listComicsRoute] at hs
    rw [List.mem_map] at hs
    obtain ⟨r, hr, hsr⟩ := hs
    have hr2 : r ∈ db.filter (fun r2 => r2.userId == B) :=
      (List.perm_insertionSort _ _).mem_iff.mp hr
    have hr3 := List.mem_filter.mp hr2
    refine ⟨r, hr3.1, by simpa [beq_iff_eq] using hr3.2, ?_⟩
    rw [← hsr]

/-- C1 witness: user 2 requesting the comic id of user 1 gets 404 from get,
update and delete, and the table is unchanged. -/
theorem ownership_isolation_witness :
    getComic 2 "1" [⟨1, 1, "t", "c", "AI", "cn", "o", "p", 5, 5⟩] = .notFound
    ∧ updateComic 2 "1" ⟨some "T", none, none, none, none, none⟩ 9
      [⟨1, 1, "t", "c", "AI", "cn", "o", "p", 5, 5⟩] =
      (.notFound, [⟨1, 1, "t", "c", "AI", "cn", "o", "p", 5, 5⟩])
    ∧ deleteComic 2 "1" [⟨1, 1, "t", "c", "AI", "cn", "o", "p", 5, 5⟩] =
      (.notFound, [⟨1, 1, "t", "c", "AI", "cn", "o", "p", 5, 5⟩]) := by
  have H := ownership_isolation 1 2 "1" 1 ⟨some "T", none, none, none, none, none⟩ 9
    [⟨1, 1, "t", "c", "AI", "cn", "o", "p", 5, 5⟩] (by decide) (by decide) (by decide)
  exact ⟨H.1, H.2.1, H.2.2.1⟩

end ComicBackend
